import Mathlib

/-!
Verification of the Vault resource of the terraform-provider-onepassword
repository (internal/provider/onepassword_vault_resource.go).

The Go code is shallowly embedded: Terraform `types.String` values become the
inductive `TFString` (null / unknown / value), the remote client interface
becomes a structure of functions, each lifecycle handler becomes a pure
function from its decoded plan or state and the configured client to the
diagnostics it appends and the state write it performs.
-/

namespace VaultResource

/-- Terraform framework `types.String`: a string attribute value that can be
null, unknown, or a known string. -/
inductive TFString where
  | null
  | unknown
  | value (s : String)
deriving DecidableEq

/-- `types.String.ValueString()`: the known string, or `""` when the value is
null or unknown. -/
def TFString.valueString : TFString → String
  | .value s => s
  | .null => ""
  | .unknown => ""

/-- `model.Vault`: the domain entity `{ID, Name, Description}`. -/
structure Vault where
  ID : String
  Name : String
  Description : String
deriving DecidableEq

/-- `OnePasswordVaultResourceModel`: the four state attributes. -/
structure OnePasswordVaultResourceModel where
  ID : TFString
  UUID : TFString
  Name : TFString
  Description : TFString
deriving DecidableEq

/-- A Go `error` value as the handlers observe it: its message, and the
not-found classification signal.

Modelled from the spec: the classifier function `isNotFoundError` is not among
the provided sources; the spec says not-found is "identified by a recognizable
signal in the error returned by `GetVault` (status code or sentinel)", so the
signal is carried as a boolean field. -/
structure GoError where
  msg : String
  notFound : Bool
deriving DecidableEq

/-- Modelled from the spec: `isNotFoundError` is not among the provided
sources; it reads the not-found signal of the error. -/
def isNotFoundError (err : GoError) : Bool :=
  err.notFound

/-- `onepassword.Client`: the four remote operations the resource consumes. -/
structure Client where
  createVault : Vault → Except GoError Vault
  getVault : String → Except GoError Vault
  updateVault : Vault → Except GoError Vault
  deleteVault : String → Option GoError

/-- One orchestrator diagnostic: summary (title) and detail. -/
structure Diagnostic where
  summary : String
  detail : String
deriving DecidableEq

/-- What a handler did to the response state: left it as it was, wrote a full
model (`resp.State.Set`), or removed the row (`resp.State.RemoveResource`). -/
inductive StateOutcome where
  | unchanged
  | set (m : OnePasswordVaultResourceModel)
  | removed
deriving DecidableEq

/-- Modelled from the spec: `vaultTerraformID` is not among the provided
sources; the spec defines the codec as `compose(uuid) → "vaults/<uuid>"`, and
`ImportState` in the sources writes the same `"vaults/%s"` form. -/
def vaultTerraformID (vault : Vault) : String :=
  "vaults/" ++ vault.ID

/-- `strings.Split` with a one-character separator, on the character list of
the string: every occurrence of the separator splits, empty segments kept,
`[""]` for the empty input. -/
def splitOnChar (sep : Char) : List Char → List (List Char)
  | [] => [[]]
  | c :: rest =>
    if c = sep then [] :: splitOnChar sep rest
    else (splitOnChar sep rest).modifyHead (c :: ·)

/-- `strings.Split(s, sep)` for a one-character separator. -/
def goSplit (s : String) (sep : Char) : List String :=
  (splitOnChar sep s.data).map String.mk

/-- `vaultUUIDFromTerraformID`: split the Terraform id on `/`; if the result
does not have exactly two elements return `""`, otherwise the second
element. -/
def vaultUUIDFromTerraformID (tfID : String) : String :=
  let elements := goSplit tfID '/'
  if elements.length ≠ 2 then "" else elements.getD 1 ""

/-- The `model.Vault` literal built by `Create` from the decoded plan: ID is
the Go zero value `""`. -/
def createRequest (plan : OnePasswordVaultResourceModel) : Vault :=
  { ID := "", Name := plan.Name.valueString, Description := plan.Description.valueString }

/-- The `model.Vault` literal built by `Update` from the decoded plan. -/
def updateRequest (plan : OnePasswordVaultResourceModel) : Vault :=
  { ID := plan.UUID.valueString
    Name := plan.Name.valueString
    Description := plan.Description.valueString }

/-- The model written to state from a remote vault: all four fields come from
the returned vault, the id through `vaultTerraformID`. -/
def stateFromVault (vault : Vault) : OnePasswordVaultResourceModel :=
  { ID := .value (vaultTerraformID vault)
    UUID := .value vault.ID
    Name := .value vault.Name
    Description := .value vault.Description }

/-- `Create`: call `CreateVault` on the request built from the plan; on error
append the create diagnostic and return; on success write the state built from
the returned vault. -/
def create (plan : OnePasswordVaultResourceModel) (client : Client) :
    List Diagnostic × StateOutcome :=
  match client.createVault (createRequest plan) with
  | .error err =>
    ([{ summary := "1Password Vault create error"
        detail := "Error creating 1Password vault, got error: " ++ err.msg }],
     .unchanged)
  | .ok createdVault => ([], .set (stateFromVault createdVault))

/-- `Read`: recover the UUID from the state id, call `GetVault`; on a
not-found error remove the resource silently; on any other error append the
read diagnostic and return; on success write the state built from the returned
vault. -/
def read (state : OnePasswordVaultResourceModel) (client : Client) :
    List Diagnostic × StateOutcome :=
  let vaultUUID := vaultUUIDFromTerraformID state.ID.valueString
  match client.getVault vaultUUID with
  | .error err =>
    if isNotFoundError err then ([], .removed)
    else
      ([{ summary := "1Password Vault read error"
          detail := "Could not get vault \x27" ++ vaultUUID ++ "\x27, got error: " ++ err.msg }],
       .unchanged)
  | .ok vault => ([], .set (stateFromVault vault))

/-- `Update`: call `UpdateVault` on the request built from the plan; on error
append the update diagnostic and return; on success write the state built from
the returned vault. -/
def update (plan : OnePasswordVaultResourceModel) (client : Client) :
    List Diagnostic × StateOutcome :=
  match client.updateVault (updateRequest plan) with
  | .error err =>
    ([{ summary := "1Password Vault update error"
        detail := "Could not update vault \x27" ++ plan.UUID.valueString
          ++ "\x27, got error: " ++ err.msg }],
     .unchanged)
  | .ok updatedVault => ([], .set (stateFromVault updatedVault))

/-- `Delete`: call `DeleteVault` on the state uuid; on error append the delete
diagnostic; the handler never touches the response state (on success the
orchestrator drops the row). -/
def delete (state : OnePasswordVaultResourceModel) (client : Client) :
    List Diagnostic × StateOutcome :=
  match client.deleteVault state.UUID.valueString with
  | some err =>
    ([{ summary := "1Password Vault delete error"
        detail := "Could not delete vault \x27" ++ state.UUID.valueString
          ++ "\x27, got error: " ++ err.msg }],
     .unchanged)
  | none => ([], .unchanged)

/-- An attribute path root, for `ImportState`'s `SetAttribute` writes. -/
inductive AttrPath where
  | id
  | uuid
  | name
  | description
deriving DecidableEq

/-- `ImportState`: takes the import key and performs exactly two attribute
writes, `id = "vaults/" ++ key` and `uuid = key`; it consumes no client and
makes no remote call. -/
def importState (reqID : String) : List Diagnostic × List (AttrPath × String) :=
  ([], [(AttrPath.id, "vaults/" ++ reqID), (AttrPath.uuid, reqID)])

/-- `OnePasswordVaultResource`: the resource implementation; the client field
is `none` until `Configure` stores one. -/
structure OnePasswordVaultResource where
  client : Option Client

/-- The provider data handed to `Configure`: either a value satisfying the
`onepassword.Client` capability, or some other value whose Go type name the
diagnostic reports. -/
inductive ProviderData where
  | client (c : Client)
  | other (typeName : String)

/-- `Configure`: nil provider data returns immediately; a client is stored on
the resource; anything else produces the configure-type diagnostic and leaves
the resource unchanged. -/
def configure (r : OnePasswordVaultResource) (providerData : Option ProviderData) :
    OnePasswordVaultResource × List Diagnostic :=
  match providerData with
  | none => (r, [])
  | some (.client c) => ({ client := some c }, [])
  | some (.other t) =>
    (r, [{ summary := "Unexpected Resource Configure Type"
           detail := "Expected onepassword.Client, got: " ++ t
             ++ ". Please report this issue to the provider developers." }])

/-- The composite-id invariant of a state row: the id attribute is `"vaults/"`
concatenated with the uuid attribute. -/
def idInvariant (m : OnePasswordVaultResourceModel) : Prop :=
  m.ID.valueString = "vaults/" ++ m.UUID.valueString

example : vaultUUIDFromTerraformID "vaults/AAA" = "AAA" := by decide
example : vaultUUIDFromTerraformID "vaults/a/b" = "" := by decide
example : vaultUUIDFromTerraformID "vaults/" = "" := by decide
example : vaultUUIDFromTerraformID "noslash" = "" := by decide
example : goSplit "a//b" '/' = ["a", "", "b"] := by decide
example : goSplit "" '/' = [""] := by decide

theorem splitOnChar_ne_nil (sep : Char) (l : List Char) : splitOnChar sep l ≠ [] := by
  induction l with
  | nil => simp [splitOnChar]
  | cons c rest ih =>
    cases h : splitOnChar sep rest with
    | nil => exact absurd h ih
    | cons hd tl =>
      by_cases hc : c = sep <;> simp [splitOnChar, h, hc, List.modifyHead]

theorem splitOnChar_not_mem (sep : Char) (l : List Char) (h : sep ∉ l) :
    splitOnChar sep l = [l] := by
  induction l with
  | nil => rfl
  | cons c rest ih =>
    have hc : c ≠ sep := fun hce => h (hce ▸ List.mem_cons_self c rest)
    have hrest : sep ∉ rest := fun hm => h (List.mem_cons_of_mem c hm)
    simp [splitOnChar, hc, ih hrest, List.modifyHead]

theorem splitOnChar_append_sep (sep : Char) (xs ys : List Char) (h : sep ∉ xs) :
    splitOnChar sep (xs ++ sep :: ys) = xs :: splitOnChar sep ys := by
  induction xs with
  | nil => simp [splitOnChar]
  | cons c rest ih =>
    have hc : c ≠ sep := fun hce => h (hce ▸ List.mem_cons_self c rest)
    have hrest : sep ∉ rest := fun hm => h (List.mem_cons_of_mem c hm)
    simp [splitOnChar, hc, ih hrest, List.modifyHead]

theorem splitOnChar_length (sep : Char) (l : List Char) :
    (splitOnChar sep l).length = l.count sep + 1 := by
  induction l with
  | nil => rfl
  | cons c rest ih =>
    by_cases hc : c = sep
    · subst hc
      simp [splitOnChar, List.count_cons_self, ih]
    · cases h : splitOnChar sep rest with
      | nil => exact absurd h (splitOnChar_ne_nil sep rest)
      | cons hd tl =>
        rw [h] at ih
        simp only [List.length_cons] at ih
        simp [splitOnChar, hc, h, List.modifyHead, List.count_cons, Ne.symm hc]
        omega

theorem goSplit_length (s : String) (sep : Char) :
    (goSplit s sep).length = s.data.count sep + 1 := by
  simp [goSplit, splitOnChar_length]

theorem vaultUUIDFromTerraformID_count_ne_one (s : String) (h : s.data.count '/' ≠ 1) :
    vaultUUIDFromTerraformID s = "" := by
  have hne : (goSplit s '/').length ≠ 2 := by
    rw [goSplit_length]
    omega
  simp [vaultUUIDFromTerraformID, hne]

theorem vaultUUIDFromTerraformID_segment (s : String) (xs ys : List Char)
    (hdata : s.data = xs ++ '/' :: ys) (hxs : '/' ∉ xs) (hys : '/' ∉ ys) :
    vaultUUIDFromTerraformID s = ⟨ys⟩ := by
  have hsplit : goSplit s '/' = [⟨xs⟩, ⟨ys⟩] := by
    simp only [goSplit, hdata]
    rw [splitOnChar_append_sep '/' xs ys hxs, splitOnChar_not_mem '/' ys hys]
    rfl
  simp [vaultUUIDFromTerraformID, hsplit]

theorem data_vaults_append (u : String) :
    ("vaults/" ++ u).data = ['v', 'a', 'u', 'l', 't', 's'] ++ '/' :: u.data := by
  rw [String.data_append]
  have h7 : "vaults/".data = ['v', 'a', 'u', 'l', 't', 's', '/'] := by decide
  rw [h7]
  simp

/-- C2 (amended): for every non-empty string `u` that does not contain `/`,
decomposing the composite identifier built from `u` returns `u` again:
`vaultUUIDFromTerraformID ("vaults/" ++ u) = u`. -/
theorem decompose_compose (u : String) (hne : u ≠ "") (hns : '/' ∉ u.data) :
    vaultUUIDFromTerraformID ("vaults/" ++ u) = u := by
  have hxs : '/' ∉ (['v', 'a', 'u', 'l', 't', 's'] : List Char) := by decide
  have h := vaultUUIDFromTerraformID_segment ("vaults/" ++ u)
    ['v', 'a', 'u', 'l', 't', 's'] u.data (data_vaults_append u) hxs hns
  exact h

/-- Witness for C2 at `u = "AAA"`. -/
theorem decompose_compose_witness : vaultUUIDFromTerraformID ("vaults/" ++ "AAA") = "AAA" :=
  decompose_compose "AAA" (by decide) (by decide)

/-- Counterexample to C2 as stated: `u = "a/b"` is non-empty, yet the
round-trip through the codec returns `""`, not `u`, because the composite then
splits into three segments. -/
theorem decompose_compose_counterexample :
    ("a/b" : String) ≠ "" ∧ vaultUUIDFromTerraformID ("vaults/" ++ "a/b") ≠ "a/b" := by
  decide

/-- C6 (amended): `vaultUUIDFromTerraformID` splits its input on `/`; it
returns the empty string whenever the input does not contain exactly one `/`,
and when the input consists of a slash-free segment, one `/`, and a slash-free
segment, it returns the segment after the `/` (possibly empty) without
validating that the segment before it equals `vaults`. The converse direction
of the original `exactly when` fails, since an empty second segment also
yields `""`. -/
theorem decompose_split_behavior (s t : String) (xs ys : List Char)
    (hdata : t.data = xs ++ '/' :: ys) (hxs : '/' ∉ xs) (hys : '/' ∉ ys) :
    (s.data.count '/' ≠ 1 → vaultUUIDFromTerraformID s = "")
    ∧ vaultUUIDFromTerraformID t = ⟨ys⟩ :=
  ⟨vaultUUIDFromTerraformID_count_ne_one s,
   vaultUUIDFromTerraformID_segment t xs ys hdata hxs hys⟩

/-- Witness for C6 at `s = "noslash"` and `t = "boxes/XYZ"`: the first
segment `boxes` differs from `vaults` and the suffix is still returned. -/
theorem decompose_split_behavior_witness :
    (("noslash" : String).data.count '/' ≠ 1 → vaultUUIDFromTerraformID "noslash" = "")
    ∧ vaultUUIDFromTerraformID "boxes/XYZ" = ⟨['X', 'Y', 'Z']⟩ :=
  decompose_split_behavior "noslash" "boxes/XYZ"
    ['b', 'o', 'x', 'e', 's'] ['X', 'Y', 'Z'] (by decide) (by decide) (by decide)

/-- Counterexample to C6 as stated: the input `"vaults/"` contains exactly one
`/`, yet the decoder returns the empty string, so returning `""` is not
equivalent to the input not containing exactly one `/`. -/
theorem decompose_split_behavior_counterexample :
    ¬ (vaultUUIDFromTerraformID "vaults/" = "" ↔ ("vaults/" : String).data.count '/' ≠ 1) := by
  decide

/-- C10: the decoder maps the well-formed composite `"vaults/"` (whose UUID
segment is empty) to `""`, the same sentinel it returns for malformed input
such as `"not-a-composite"`, so the two are indistinguishable at its
output. -/
theorem decompose_empty_uuid_sentinel :
    goSplit "vaults/" '/' = ["vaults", ""]
    ∧ vaultUUIDFromTerraformID "vaults/" = ""
    ∧ vaultUUIDFromTerraformID "not-a-composite" = ""
    ∧ vaultUUIDFromTerraformID "vaults/" = vaultUUIDFromTerraformID "not-a-composite" := by
  decide

/-- C4: when `GetVault` returns an error classified as not-found, `Read`
removes the state row and adds no diagnostic; for any other `GetVault` error,
`Read` adds the single `1Password Vault read error` diagnostic (whose detail
carries the underlying message) and leaves the state row in place. -/
theorem read_error_classification (state : OnePasswordVaultResourceModel)
    (client : Client) (e : GoError)
    (h : client.getVault (vaultUUIDFromTerraformID state.ID.valueString) = .error e) :
    read state client =
      if e.notFound then ([], .removed)
      else
        ([{ summary := "1Password Vault read error"
            detail := "Could not get vault \x27"
              ++ vaultUUIDFromTerraformID state.ID.valueString
              ++ "\x27, got error: " ++ e.msg }],
         .unchanged) := by
  simp only [read, h, isNotFoundError]

/-- Witness for C4: a state row whose vault was deleted remotely; the
not-found signal makes `Read` remove the row silently. -/
theorem read_error_classification_witness :
    read ⟨.value "vaults/CCC", .value "CCC", .value "n", .value "d"⟩
      ⟨fun _ => .error ⟨"no vault found", true⟩, fun _ => .error ⟨"no vault found", true⟩,
       fun _ => .error ⟨"no vault found", true⟩, fun _ => some ⟨"no vault found", true⟩⟩
      = ([], .removed) := by
  have h := read_error_classification
    ⟨.value "vaults/CCC", .value "CCC", .value "n", .value "d"⟩
    ⟨fun _ => .error ⟨"no vault found", true⟩, fun _ => .error ⟨"no vault found", true⟩,
     fun _ => .error ⟨"no vault found", true⟩, fun _ => some ⟨"no vault found", true⟩⟩
    ⟨"no vault found", true⟩ rfl
  simpa using h

/-- C3: whenever the remote call of a handler errors (Create, Update, Delete,
and Read with a non-not-found error), the handler emits exactly one error
diagnostic with the corresponding title, whose detail contains the underlying
error message, and performs no state write. -/
theorem handlers_abort_on_error (plan state : OnePasswordVaultResourceModel)
    (client : Client) (e1 e2 e3 e4 : GoError)
    (hc : client.createVault (createRequest plan) = .error e1)
    (hu : client.updateVault (updateRequest plan) = .error e2)
    (hd : client.deleteVault state.UUID.valueString = some e3)
    (hr : client.getVault (vaultUUIDFromTerraformID state.ID.valueString) = .error e4)
    (hnf : e4.notFound = false) :
    create plan client =
      ([{ summary := "1Password Vault create error"
          detail := "Error creating 1Password vault, got error: " ++ e1.msg }], .unchanged)
    ∧ update plan client =
      ([{ summary := "1Password Vault update error"
          detail := "Could not update vault \x27" ++ plan.UUID.valueString
            ++ "\x27, got error: " ++ e2.msg }], .unchanged)
    ∧ delete state client =
      ([{ summary := "1Password Vault delete error"
          detail := "Could not delete vault \x27" ++ state.UUID.valueString
            ++ "\x27, got error: " ++ e3.msg }], .unchanged)
    ∧ read state client =
      ([{ summary := "1Password Vault read error"
          detail := "Could not get vault \x27"
            ++ vaultUUIDFromTerraformID state.ID.valueString
            ++ "\x27, got error: " ++ e4.msg }], .unchanged) := by
  refine ⟨?_, ?_, ?_, ?_⟩
  · simp [create, hc]
  · simp [update, hu]
  · simp [delete, hd]
  · simp [read, hr, isNotFoundError, hnf]

/-- Witness for C3: a backend that refuses every operation with a fixed
message; each handler emits its single diagnostic and leaves state alone. -/
theorem handlers_abort_on_error_witness :
    create ⟨.value "vaults/DDD", .value "DDD", .value "N", .value "D"⟩
      ⟨fun _ => .error ⟨"not supported with 1Password Connect", false⟩,
       fun _ => .error ⟨"not supported with 1Password Connect", false⟩,
       fun _ => .error ⟨"not supported with 1Password Connect", false⟩,
       fun _ => some ⟨"not supported with 1Password Connect", false⟩⟩ =
      ([{ summary := "1Password Vault create error"
          detail := "Error creating 1Password vault, got error: "
            ++ "not supported with 1Password Connect" }], .unchanged)
    ∧ update ⟨.value "vaults/DDD", .value "DDD", .value "N", .value "D"⟩
      ⟨fun _ => .error ⟨"not supported with 1Password Connect", false⟩,
       fun _ => .error ⟨"not supported with 1Password Connect", false⟩,
       fun _ => .error ⟨"not supported with 1Password Connect", false⟩,
       fun _ => some ⟨"not supported with 1Password Connect", false⟩⟩ =
      ([{ summary := "1Password Vault update error"
          detail := "Could not update vault \x27" ++ "DDD"
            ++ "\x27, got error: " ++ "not supported with 1Password Connect" }], .unchanged)
    ∧ delete ⟨.value "vaults/DDD", .value "DDD", .value "N", .value "D"⟩
      ⟨fun _ => .error ⟨"not supported with 1Password Connect", false⟩,
       fun _ => .error ⟨"not supported with 1Password Connect", false⟩,
       fun _ => .error ⟨"not supported with 1Password Connect", false⟩,
       fun _ => some ⟨"not supported with 1Password Connect", false⟩⟩ =
      ([{ summary := "1Password Vault delete error"
          detail := "Could not delete vault \x27" ++ "DDD"
            ++ "\x27, got error: " ++ "not supported with 1Password Connect" }], .unchanged)
    ∧ read ⟨.value "vaults/DDD", .value "DDD", .value "N", .value "D"⟩
      ⟨fun _ => .error ⟨"not supported with 1Password Connect", false⟩,
       fun _ => .error ⟨"not supported with 1Password Connect", false⟩,
       fun _ => .error ⟨"not supported with 1Password Connect", false⟩,
       fun _ => some ⟨"not supported with 1Password Connect", false⟩⟩ =
      ([{ summary := "1Password Vault read error"
          detail := "Could not get vault \x27"
            ++ vaultUUIDFromTerraformID (TFString.value "vaults/DDD").valueString
            ++ "\x27, got error: " ++ "not supported with 1Password Connect" }], .unchanged) :=
  handlers_abort_on_error
    ⟨.value "vaults/DDD", .value "DDD", .value "N", .value "D"⟩
    ⟨.value "vaults/DDD", .value "DDD", .value "N", .value "D"⟩
    ⟨fun _ => .error ⟨"not supported with 1Password Connect", false⟩,
     fun _ => .error ⟨"not supported with 1Password Connect", false⟩,
     fun _ => .error ⟨"not supported with 1Password Connect", false⟩,
     fun _ => some ⟨"not supported with 1Password Connect", false⟩⟩
    ⟨"not supported with 1Password Connect", false⟩
    ⟨"not supported with 1Password Connect", false⟩
    ⟨"not supported with 1Password Connect", false⟩
    ⟨"not supported with 1Password Connect", false⟩
    rfl rfl rfl rfl rfl

/-- The state write of every success path satisfies the composite-id
invariant. -/
theorem stateFromVault_idInvariant (v : Vault) : idInvariant (stateFromVault v) := by
  simp [idInvariant, stateFromVault, vaultTerraformID, TFString.valueString]

/-- The composite-id invariant on the attribute writes of `ImportState`: every
written id value is `"vaults/"` followed by every written uuid value. -/
def importWriteInvariant (writes : List (AttrPath × String)) : Prop :=
  ∀ p ∈ writes, ∀ q ∈ writes, p.1 = AttrPath.id → q.1 = AttrPath.uuid →
    p.2 = "vaults/" ++ q.2

/-- C1: every state row written by any handler (Create, Read on success,
Update, Import) satisfies the invariant that the id field equals `"vaults/"`
concatenated with the uuid field. -/
theorem handlers_preserve_id_invariant
    (plan state plan2 : OnePasswordVaultResourceModel) (client : Client) (k : String)
    (m1 m2 m3 : OnePasswordVaultResourceModel)
    (h1 : (create plan client).2 = .set m1)
    (h2 : (read state client).2 = .set m2)
    (h3 : (update plan2 client).2 = .set m3) :
    idInvariant m1 ∧ idInvariant m2 ∧ idInvariant m3
      ∧ importWriteInvariant (importState k).2 := by
  refine ⟨?_, ?_, ?_, ?_⟩
  · cases hres : client.createVault (createRequest plan) with
    | error e => simp [create, hres] at h1
    | ok v =>
      simp [create, hres] at h1
      exact h1 ▸ stateFromVault_idInvariant v
  · cases hres : client.getVault (vaultUUIDFromTerraformID state.ID.valueString) with
    | error e =>
      by_cases hnf : isNotFoundError e <;> simp [read, hres, hnf] at h2
    | ok v =>
      simp [read, hres] at h2
      exact h2 ▸ stateFromVault_idInvariant v
  · cases hres : client.updateVault (updateRequest plan2) with
    | error e => simp [update, hres] at h3
    | ok v =>
      simp [update, hres] at h3
      exact h3 ▸ stateFromVault_idInvariant v
  · intro p hp q hq hpid hquuid
    simp [importState] at hp hq
    rcases hp with hp | hp <;> rcases hq with hq | hq <;>
      simp [hp, hq] at hpid hquuid ⊢

/-- Witness for C1: a client that answers every call with the vault of ID
`AAA`, name `N` and description `D`; each success write and also the
attribute writes of the import path satisfy the invariant. -/
theorem handlers_preserve_id_invariant_witness :
    idInvariant ⟨.value "vaults/AAA", .value "AAA", .value "N", .value "D"⟩
    ∧ idInvariant ⟨.value "vaults/AAA", .value "AAA", .value "N", .value "D"⟩
    ∧ idInvariant ⟨.value "vaults/AAA", .value "AAA", .value "N", .value "D"⟩
    ∧ importWriteInvariant (importState "EEE").2 :=
  handlers_preserve_id_invariant
    ⟨.unknown, .unknown, .value "N", .value "D"⟩
    ⟨.value "vaults/AAA", .value "AAA", .value "N", .value "D"⟩
    ⟨.value "vaults/AAA", .value "AAA", .value "N", .value "D"⟩
    ⟨fun _ => .ok ⟨"AAA", "N", "D"⟩, fun _ => .ok ⟨"AAA", "N", "D"⟩,
     fun _ => .ok ⟨"AAA", "N", "D"⟩, fun _ => none⟩
    "EEE"
    ⟨.value "vaults/AAA", .value "AAA", .value "N", .value "D"⟩
    ⟨.value "vaults/AAA", .value "AAA", .value "N", .value "D"⟩
    ⟨.value "vaults/AAA", .value "AAA", .value "N", .value "D"⟩
    rfl rfl rfl

/-- The concrete prior state used to refute C5 as stated: uuid `DDD`, id
`vaults/DDD`. -/
def updatePriorPlan : OnePasswordVaultResourceModel :=
  ⟨.value "vaults/DDD", .value "DDD", .value "Old", .value "x"⟩

/-- A client whose `UpdateVault` returns a vault with a different ID (`EEE`)
than the one it was asked to update. -/
def updateRenamingClient : Client :=
  ⟨fun _ => .ok ⟨"EEE", "New", "y"⟩, fun _ => .ok ⟨"EEE", "New", "y"⟩,
   fun _ => .ok ⟨"EEE", "New", "y"⟩, fun _ => none⟩

/-- Counterexample to C5 as stated: when `UpdateVault` returns a vault whose
ID differs from the plan uuid, `Update` writes that returned ID into both uuid
and id, so they are not carried forward unchanged for every returned value. -/
theorem update_identity_counterexample :
    (update updatePriorPlan updateRenamingClient).2 =
      .set ⟨.value "vaults/EEE", .value "EEE", .value "New", .value "y"⟩
    ∧ TFString.value "EEE" ≠ updatePriorPlan.UUID
    ∧ TFString.value "vaults/EEE" ≠ updatePriorPlan.ID := by
  decide

/-- C5 (amended): for every successful Update in which the returned vault
carries the same ID as the plan uuid (the server echoes the identifier) and
the plan id is the composite of that uuid, the written state keeps the plan
uuid and id unchanged and updates only name and description, to the values the
remote returned. -/
theorem update_carries_identity_forward (plan : OnePasswordVaultResourceModel)
    (client : Client) (v : Vault) (u : String)
    (hok : client.updateVault (updateRequest plan) = .ok v)
    (hu : plan.UUID = .value u)
    (hid : plan.ID = .value ("vaults/" ++ u))
    (hecho : v.ID = u) :
    update plan client =
      ([], .set { ID := plan.ID, UUID := plan.UUID
                  Name := .value v.Name, Description := .value v.Description }) := by
  simp [update, hok, stateFromVault, vaultTerraformID, hecho, hu, hid]

/-- Witness for C5 (amended): the server echoes uuid `DDD` and the new
name/description; uuid and id are carried forward. -/
theorem update_carries_identity_forward_witness :
    update updatePriorPlan
      ⟨fun _ => .ok ⟨"DDD", "New", "y"⟩, fun _ => .ok ⟨"DDD", "New", "y"⟩,
       fun _ => .ok ⟨"DDD", "New", "y"⟩, fun _ => none⟩ =
      ([], .set { ID := updatePriorPlan.ID, UUID := updatePriorPlan.UUID
                  Name := .value "New", Description := .value "y" }) :=
  update_carries_identity_forward updatePriorPlan
    ⟨fun _ => .ok ⟨"DDD", "New", "y"⟩, fun _ => .ok ⟨"DDD", "New", "y"⟩,
     fun _ => .ok ⟨"DDD", "New", "y"⟩, fun _ => none⟩
    ⟨"DDD", "New", "y"⟩ "DDD" rfl rfl rfl rfl

/-- C7: whenever Create, Read, or Update succeeds, all four written fields —
in particular name and description — are taken from the vault the remote call
returned, not from the request or plan values, for every returned vault. -/
theorem handlers_write_returned_values
    (plan state plan2 : OnePasswordVaultResourceModel) (client : Client)
    (v1 v2 v3 : Vault)
    (h1 : client.createVault (createRequest plan) = .ok v1)
    (h2 : client.getVault (vaultUUIDFromTerraformID state.ID.valueString) = .ok v2)
    (h3 : client.updateVault (updateRequest plan2) = .ok v3) :
    create plan client =
      ([], .set { ID := .value (vaultTerraformID v1), UUID := .value v1.ID
                  Name := .value v1.Name, Description := .value v1.Description })
    ∧ read state client =
      ([], .set { ID := .value (vaultTerraformID v2), UUID := .value v2.ID
                  Name := .value v2.Name, Description := .value v2.Description })
    ∧ update plan2 client =
      ([], .set { ID := .value (vaultTerraformID v3), UUID := .value v3.ID
                  Name := .value v3.Name, Description := .value v3.Description }) := by
  refine ⟨?_, ?_, ?_⟩
  · simp [create, h1, stateFromVault]
  · simp [read, h2, stateFromVault]
  · simp [update, h3, stateFromVault]

/-- Witness for C7: the plan asks for name `Prod`, the server answers with a
normalized name `Prod2` and description `srv`; the written state carries the
server values. -/
theorem handlers_write_returned_values_witness :
    create ⟨.unknown, .unknown, .value "Prod", .value "req"⟩
      ⟨fun _ => .ok ⟨"AAA", "Prod2", "srv"⟩, fun _ => .ok ⟨"AAA", "Prod2", "srv"⟩,
       fun _ => .ok ⟨"AAA", "Prod2", "srv"⟩, fun _ => none⟩ =
      ([], .set { ID := .value (vaultTerraformID ⟨"AAA", "Prod2", "srv"⟩)
                  UUID := .value "AAA"
                  Name := .value "Prod2", Description := .value "srv" })
    ∧ read ⟨.value "vaults/AAA", .value "AAA", .value "Prod", .value "req"⟩
      ⟨fun _ => .ok ⟨"AAA", "Prod2", "srv"⟩, fun _ => .ok ⟨"AAA", "Prod2", "srv"⟩,
       fun _ => .ok ⟨"AAA", "Prod2", "srv"⟩, fun _ => none⟩ =
      ([], .set { ID := .value (vaultTerraformID ⟨"AAA", "Prod2", "srv"⟩)
                  UUID := .value "AAA"
                  Name := .value "Prod2", Description := .value "srv" })
    ∧ update ⟨.value "vaults/AAA", .value "AAA", .value "Prod", .value "req"⟩
      ⟨fun _ => .ok ⟨"AAA", "Prod2", "srv"⟩, fun _ => .ok ⟨"AAA", "Prod2", "srv"⟩,
       fun _ => .ok ⟨"AAA", "Prod2", "srv"⟩, fun _ => none⟩ =
      ([], .set { ID := .value (vaultTerraformID ⟨"AAA", "Prod2", "srv"⟩)
                  UUID := .value "AAA"
                  Name := .value "Prod2", Description := .value "srv" }) :=
  handlers_write_returned_values
    ⟨.unknown, .unknown, .value "Prod", .value "req"⟩
    ⟨.value "vaults/AAA", .value "AAA", .value "Prod", .value "req"⟩
    ⟨.value "vaults/AAA", .value "AAA", .value "Prod", .value "req"⟩
    ⟨fun _ => .ok ⟨"AAA", "Prod2", "srv"⟩, fun _ => .ok ⟨"AAA", "Prod2", "srv"⟩,
     fun _ => .ok ⟨"AAA", "Prod2", "srv"⟩, fun _ => none⟩
    ⟨"AAA", "Prod2", "srv"⟩ ⟨"AAA", "Prod2", "srv"⟩ ⟨"AAA", "Prod2", "srv"⟩
    rfl rfl rfl

/-- C8: for every import key `k`, `ImportState` appends no diagnostic and
performs exactly two attribute writes, `id = "vaults/" ++ k` and `uuid = k`;
it touches neither name nor description and consumes no client, so it makes no
remote call. -/
theorem importState_writes (k : String) :
    importState k = ([], [(AttrPath.id, "vaults/" ++ k), (AttrPath.uuid, k)])
    ∧ (importState k).2.length = 2
    ∧ (importState k).2.map Prod.fst = [AttrPath.id, AttrPath.uuid] :=
  ⟨rfl, rfl, rfl⟩

/-- C9: `Configure` with nil provider data returns immediately with no
diagnostic and the resource unchanged; provider data satisfying the client
capability is stored silently; only non-nil provider data that is not a client
produces the `Unexpected Resource Configure Type` diagnostic, and the resource
is unchanged. -/
theorem configure_cases (r : OnePasswordVaultResource) (c : Client) (t : String) :
    configure r none = (r, [])
    ∧ configure r (some (.client c)) = ({ client := some c }, [])
    ∧ configure r (some (.other t)) =
        (r, [{ summary := "Unexpected Resource Configure Type"
               detail := "Expected onepassword.Client, got: " ++ t
                 ++ ". Please report this issue to the provider developers." }]) :=
  ⟨rfl, rfl, rfl⟩

end VaultResource
